import Mathlib

/-!
Shallow embedding of the shipment-analysis orchestration core
(`src/services/shipment-analyzer.service.ts`, `src/index.ts`,
`src/utils/retry.util.ts`, `src/adapters/weather/open-meteo.provider.ts`,
`src/services/keyword-delay-analyzer.service.ts`) and proofs of the spec
claims about it.

Modelling conventions:
* TypeScript numbers used for confidences, coordinates and weather values
  become `Rat` (all literals in the source are exact decimals).
* JavaScript `Date` values become `DateTime` below: the epoch day and the
  UTC hour, which are the only two projections the analysed code inspects
  (`setHours(0,0,0,0)` comparison and `getUTCHours`); ISO serialization is
  abstracted by `isoString`.
* Fallible asynchronous calls become `Except`-valued oracle functions; the
  delay classifier is an oracle indexed by a global call counter, threaded
  through the orchestration in submission order (the source awaits each
  classifier call sequentially per container).
* Mutable `errors.push(...)` accumulation becomes explicit list results:
  each function returns the list of errors it appended, and callers
  concatenate in push order.
* Ghost observability fields (`providerCalled`, `weatherAttempted`,
  `calls`) record which external calls were made; they do not influence
  any computed data.
-/

/-- `Result<T>` from `src/types/result.types.ts`: success-with-data,
success-without-data (not found), or failure. Each variant carries its
`message`. -/
inductive Result (α : Type) where
  | success (data : α) (message : String)
  | notFound (message : String)
  | failure (message : String)
deriving DecidableEq

/-- `isSuccess` type guard: success with data. -/
def Result.isSuccess : Result α → Bool
  | .success _ _ => true
  | _ => false

/-- `WeatherFetchStatus` enum from `src/types/result.types.ts`. -/
inductive WeatherFetchStatus where
  | SUCCESS
  | NO_DATA_AVAILABLE
  | RETRY_EXHAUSTED
  | FATAL_ERROR
deriving DecidableEq

/-- Payload of a successful weather fetch. -/
structure WeatherData where
  temperature : Option Rat
  windSpeed : Option Rat
  windDirection : Option Rat
deriving DecidableEq

/-- `WeatherResult` discriminated union from `src/types/result.types.ts`. -/
inductive WeatherResult where
  | SUCCESS (data : WeatherData)
  | NO_DATA_AVAILABLE (error : Option String)
  | RETRY_EXHAUSTED (error : String)
  | FATAL_ERROR (error : String)
deriving DecidableEq

/-- The `status` discriminant of a `WeatherResult`. -/
def WeatherResult.status : WeatherResult → WeatherFetchStatus
  | .SUCCESS _ => .SUCCESS
  | .NO_DATA_AVAILABLE _ => .NO_DATA_AVAILABLE
  | .RETRY_EXHAUSTED _ => .RETRY_EXHAUSTED
  | .FATAL_ERROR _ => .FATAL_ERROR

/-- `GeoLocation` from `src/types/domain.types.ts`. -/
structure GeoLocation where
  latitude : Rat
  longitude : Rat
  name : Option String
deriving DecidableEq

/-- A JavaScript `Date`, reduced to the two projections the analysed code
inspects: the day (epoch days; `setHours(0,0,0,0)` erases time-of-day) and
the UTC hour (`getUTCHours`). -/
structure DateTime where
  day : Int
  hour : Nat
deriving DecidableEq

/-- Abstract stand-in for `Date.toISOString()`; no claim inspects the
serialized text beyond propagating it. -/
def isoString (d : DateTime) : String :=
  toString d.day ++ "T" ++ toString d.hour

/-- `Tracking` from `src/types/domain.types.ts`. -/
structure Tracking where
  containerNumber : String
  scac : String
  estimatedArrival : DateTime
  actualArrival : Option DateTime
  delayReasons : List String
  destinationPort : Option GeoLocation
deriving DecidableEq

/-- `Container` from `src/types/domain.types.ts`. -/
structure Container where
  containerNumber : String
deriving DecidableEq

/-- `Shipment` from `src/types/domain.types.ts`. -/
structure Shipment where
  shipmentId : String
  customerName : String
  shipperName : String
  containers : List Container
deriving DecidableEq

/-- `DelayAnalysisResult` from `src/types/delay-analysis.types.ts`. -/
structure DelayAnalysisResult where
  isWeatherRelated : Bool
  reasoning : String
  confidence : Rat
deriving DecidableEq

/-- `ShipmentAnalysisError` from `src/types/result.types.ts`. -/
structure ShipmentAnalysisError where
  containerNumber : String
  errorType : String
  message : String
deriving DecidableEq

/-- `ShipmentAnalysisRecord` from `src/types/result.types.ts`. Optional
fields are `Option`; an absent field is `none`. -/
structure ShipmentAnalysisRecord where
  sglShipmentNo : String
  customerName : String
  shipperName : String
  containerNumber : String
  scac : Option String
  initialCarrierETA : Option String
  actualArrivalAt : Option String
  delayReasons : Option String
  temperature : Option Rat
  windSpeed : Option Rat
  weatherFetchStatus : Option WeatherFetchStatus
  lastUpdated : String
  error : Option String
deriving DecidableEq

/-- JavaScript `Array.prototype.join("; ")`, also the shape produced by the
error map's repeated `existing + "; " + msg` appends. -/
def joinSemi : List String → String
  | [] => ""
  | [s] => s
  | s :: rest => s ++ "; " ++ joinSemi rest

/-- The external collaborators injected into `ShipmentAnalyzerService`, as
oracles. `analyzeDelay` is indexed by the global classifier-call counter so
call counts are observable. `getWeather` may raise (`Except.error`). -/
structure AnalyzerEnv where
  getShipmentById : String → Result Shipment
  getTrackingByContainer : String → Result Tracking
  analyzeDelay : Nat → String → DelayAnalysisResult
  getWeather : Rat → Rat → DateTime → Except String WeatherResult
  now : String

/-- `ShipmentAnalyzerService.CONFIDENCE_THRESHOLD` (the source's `0.8`;
written with `mkRat` so that it evaluates by kernel reduction). -/
def CONFIDENCE_THRESHOLD : Rat := mkRat 8 10

/-- The message built for a `DELAY_ANALYSIS_LOW_CONFIDENCE` error in
`analyzeDelayWithConfidenceCheck`. -/
def lowConfidenceMessage (confidence : Rat) (delayReason : String) : String :=
  "Delay analysis confidence too low (" ++ toString confidence
    ++ ") even after retry for delay: \"" ++ delayReason ++ "\""

/-- Result of one confidence-gated classification of one delay reason:
the accepted verdict (or `none` if discarded), the classifier-call counter
after the gate, and the errors the gate appended. -/
structure GateResult where
  verdict : Option DelayAnalysisResult
  nextCall : Nat
  newErrors : List ShipmentAnalysisError
deriving DecidableEq

/-- `ShipmentAnalyzerService.analyzeDelayWithConfidenceCheck`: classify
once; accept if confidence meets the threshold; otherwise retry exactly
once; accept the retry if it meets the threshold; otherwise discard the
verdict and append one `DELAY_ANALYSIS_LOW_CONFIDENCE` error. -/
def analyzeDelayWithConfidenceCheck (an : Nat → String → DelayAnalysisResult)
    (delayReason containerNumber : String) (k : Nat) : GateResult :=
  let first := an k delayReason
  if CONFIDENCE_THRESHOLD ≤ first.confidence then
    ⟨some first, k + 1, []⟩
  else
    let second := an (k + 1) delayReason
    if CONFIDENCE_THRESHOLD ≤ second.confidence then
      ⟨some second, k + 2, []⟩
    else
      ⟨none, k + 2,
        [⟨containerNumber, "DELAY_ANALYSIS_LOW_CONFIDENCE",
          lowConfidenceMessage second.confidence delayReason⟩]⟩

/-- Result of scanning a container's delay reasons for a weather-related
delay. -/
structure DelayScanResult where
  found : Bool
  nextCall : Nat
  newErrors : List ShipmentAnalysisError
deriving DecidableEq

/-- `ShipmentAnalyzerService.hasWeatherRelatedDelay`: iterate the delay
reasons in order; skip reasons whose verdict was discarded; return `true`
on the first accepted weather-related verdict; `false` if none. -/
def hasWeatherRelatedDelay (an : Nat → String → DelayAnalysisResult)
    (reasons : List String) (containerNumber : String) (k : Nat) :
    DelayScanResult :=
  match reasons with
  | [] => ⟨false, k, []⟩
  | reason :: rest =>
    let g := analyzeDelayWithConfidenceCheck an reason containerNumber k
    match g.verdict with
    | none =>
      let r := hasWeatherRelatedDelay an rest containerNumber g.nextCall
      ⟨r.found, r.nextCall, g.newErrors ++ r.newErrors⟩
    | some a =>
      if a.isWeatherRelated then ⟨true, g.nextCall, g.newErrors⟩
      else
        let r := hasWeatherRelatedDelay an rest containerNumber g.nextCall
        ⟨r.found, r.nextCall, g.newErrors ++ r.newErrors⟩

/-- Outcome of `fetchWeatherSafely`: the weather result, the errors it
appended, and a ghost flag recording whether the weather provider was
actually invoked. -/
structure WeatherFetchOutcome where
  result : WeatherResult
  newErrors : List ShipmentAnalysisError
  providerCalled : Bool
deriving DecidableEq

/-- `ShipmentAnalyzerService.fetchWeatherSafely`: if `destinationPort` or
`actualArrival` is missing, short-circuit to `NO_DATA_AVAILABLE` without
calling the provider and without appending an error; otherwise call the
provider, and if the call raises, append one `WEATHER_FETCH_ERROR` and
return `FATAL_ERROR`. -/
def fetchWeatherSafely (gw : Rat → Rat → DateTime → Except String WeatherResult)
    (tracking : Tracking) (containerNumber : String) : WeatherFetchOutcome :=
  match tracking.destinationPort, tracking.actualArrival with
  | some port, some arrival =>
    match gw port.latitude port.longitude arrival with
    | .ok w => ⟨w, [], true⟩
    | .error msg =>
      ⟨.FATAL_ERROR msg, [⟨containerNumber, "WEATHER_FETCH_ERROR", msg⟩], true⟩
  | _, _ =>
    ⟨.NO_DATA_AVAILABLE (some "Missing port location or arrival date"), [], false⟩

/-- `ShipmentAnalyzerService.buildErrorRecord`: the placeholder record for
an unresolved shipment. -/
def buildErrorRecord (shipmentId now : String) : ShipmentAnalysisRecord :=
  { sglShipmentNo := shipmentId
    customerName := ""
    shipperName := ""
    containerNumber := ""
    scac := none
    initialCarrierETA := none
    actualArrivalAt := none
    delayReasons := none
    temperature := none
    windSpeed := none
    weatherFetchStatus := none
    lastUpdated := now
    error := none }

/-- `ShipmentAnalyzerService.buildBaseRecord`: one record per container,
tracking-derived fields populated only when tracking resolved. -/
def buildBaseRecord (shipment : Shipment) (containerNumber : String)
    (tracking : Option Tracking) (now : String) : ShipmentAnalysisRecord :=
  { sglShipmentNo := shipment.shipmentId
    customerName := shipment.customerName
    shipperName := shipment.shipperName
    containerNumber := containerNumber
    scac := tracking.map (·.scac)
    initialCarrierETA := tracking.map (fun t => isoString t.estimatedArrival)
    actualArrivalAt := tracking.bind (fun t => t.actualArrival.map isoString)
    delayReasons := tracking.map (fun t => joinSemi t.delayReasons)
    temperature := none
    windSpeed := none
    weatherFetchStatus := none
    lastUpdated := now
    error := none }

/-- Outcome of `processContainer`: the emitted record, the errors appended,
the classifier-call counter afterwards, and ghost flags recording whether
`fetchWeatherSafely` was entered and whether the provider was invoked. -/
structure ContainerOutcome where
  record : ShipmentAnalysisRecord
  newErrors : List ShipmentAnalysisError
  nextCall : Nat
  weatherAttempted : Bool
  providerCalled : Bool
deriving DecidableEq

/-- `ShipmentAnalyzerService.processContainer`: resolve tracking (failure
appends one `TRACKING_FETCH_ERROR`; not-found appends nothing), build the
base record, and when tracking resolved and a weather-related delay was
determined, enrich it with the weather fetch outcome. -/
def processContainer (env : AnalyzerEnv) (shipment : Shipment)
    (containerNumber : String) (k : Nat) : ContainerOutcome :=
  let trackingResult := env.getTrackingByContainer containerNumber
  let trackingErrors : List ShipmentAnalysisError :=
    match trackingResult with
    | .failure msg => [⟨containerNumber, "TRACKING_FETCH_ERROR", msg⟩]
    | _ => []
  let tracking : Option Tracking :=
    match trackingResult with
    | .success t _ => some t
    | _ => none
  let record := buildBaseRecord shipment containerNumber tracking env.now
  match tracking with
  | some t =>
    let scan := hasWeatherRelatedDelay env.analyzeDelay t.delayReasons
      containerNumber k
    if scan.found then
      let w := fetchWeatherSafely env.getWeather t containerNumber
      let record' :=
        match w.result with
        | .SUCCESS d =>
          { record with
            temperature := d.temperature
            windSpeed := d.windSpeed
            weatherFetchStatus := some w.result.status }
        | _ => { record with weatherFetchStatus := some w.result.status }
      ⟨record', trackingErrors ++ scan.newErrors ++ w.newErrors,
        scan.nextCall, true, w.providerCalled⟩
    else
      ⟨record, trackingErrors ++ scan.newErrors, scan.nextCall, false, false⟩
  | none => ⟨record, trackingErrors, k, false, false⟩

/-- Outcome of processing one shipment (or one chunk, or the whole batch):
the records and errors in emission order plus the classifier-call counter. -/
structure ShipmentOutcome where
  records : List ShipmentAnalysisRecord
  errors : List ShipmentAnalysisError
  nextCall : Nat
deriving DecidableEq

/-- The container fan-out inside `processShipment`, collected in submission
order (the source awaits `Promise.allSettled` and iterates results in
order). -/
def processContainers (env : AnalyzerEnv) (shipment : Shipment) :
    List Container → Nat → ShipmentOutcome
  | [], k => ⟨[], [], k⟩
  | c :: rest, k =>
    let r := processContainer env shipment c.containerNumber k
    let rs := processContainers env shipment rest r.nextCall
    ⟨r.record :: rs.records, r.newErrors ++ rs.errors, rs.nextCall⟩

/-- `ShipmentAnalyzerService.processShipment`: an unresolved shipment
yields one placeholder record and one `SHIPMENT_NOT_FOUND` /
`SHIPMENT_FETCH_ERROR` error keyed by the shipment id; a resolved shipment
fans out over its containers. -/
def processShipment (env : AnalyzerEnv) (shipmentId : String) (k : Nat) :
    ShipmentOutcome :=
  match env.getShipmentById shipmentId with
  | .success shipment _ => processContainers env shipment shipment.containers k
  | .notFound msg =>
    ⟨[buildErrorRecord shipmentId env.now],
      [⟨shipmentId, "SHIPMENT_NOT_FOUND", msg⟩], k⟩
  | .failure msg =>
    ⟨[buildErrorRecord shipmentId env.now],
      [⟨shipmentId, "SHIPMENT_FETCH_ERROR", msg⟩], k⟩

/-- `ShipmentAnalyzerService.chunkArray`: split into slices of `size`.
The source's loop (`i += size`) never terminates for `size = 0`; the
configuration validates `batchSize` positive, so the `0` case here is an
arbitrary total completion and every theorem about batching assumes
`0 < size`. -/
def chunkArray : List α → Nat → List (List α)
  | _, 0 => []
  | [], _ + 1 => []
  | x :: xs, s + 1 => (x :: xs).take (s + 1) :: chunkArray (xs.drop s) (s + 1)
termination_by l _ => l.length
decreasing_by
  simp only [List.length_drop, List.length_cons]
  omega

/-- One chunk of `analyzeShipments`: shipments collected in submission
order. -/
def processChunk (env : AnalyzerEnv) : List String → Nat → ShipmentOutcome
  | [], k => ⟨[], [], k⟩
  | id :: rest, k =>
    let r := processShipment env id k
    let rs := processChunk env rest r.nextCall
    ⟨r.records ++ rs.records, r.errors ++ rs.errors, rs.nextCall⟩

/-- The sequential chunk loop of `analyzeShipments`. -/
def processChunks (env : AnalyzerEnv) : List (List String) → Nat →
    ShipmentOutcome
  | [], k => ⟨[], [], k⟩
  | chunk :: rest, k =>
    let r := processChunk env chunk k
    let rs := processChunks env rest r.nextCall
    ⟨r.records ++ rs.records, r.errors ++ rs.errors, rs.nextCall⟩

/-- `ShipmentAnalyzerService.analyzeShipments`: chunk the input ids and
process chunk-by-chunk, concatenating records and errors in order. -/
def analyzeShipments (env : AnalyzerEnv) (shipmentIds : List String)
    (batchSize : Nat) (k : Nat) : ShipmentOutcome :=
  processChunks env (chunkArray shipmentIds batchSize) k

/-- `RetryOptions` from `src/utils/retry.util.ts`. Delay fields are carried
for fidelity; no claim concerns the backoff arithmetic. -/
structure RetryOptions where
  maxRetries : Nat
  baseDelay : Rat
  maxDelay : Rat
  jitterFactor : Rat
deriving DecidableEq

/-- Observable outcome of `retryWithBackoff`: the returned value, a
re-raised non-retryable error, or a `RetryExhaustedError` carrying the
attempt count and the last underlying error. -/
inductive RetryOutcome (ε τ : Type) where
  | ok (value : τ)
  | raised (error : ε)
  | exhausted (attempts : Nat) (lastError : ε)
deriving DecidableEq

/-- Result of a whole `retryWithBackoff` run together with the ghost count
of operation invocations. -/
structure RetryRun (ε τ : Type) where
  outcome : RetryOutcome ε τ
  calls : Nat
deriving DecidableEq

/-- Intermediate result of the retry loop body, before the wrapper turns
"all attempts failed" into a `RetryExhaustedError`. -/
inductive RetryLoopResult (ε τ : Type) where
  | ok (value : τ)
  | raised (error : ε)
  | allFailed (lastError : ε)
deriving DecidableEq

/-- The `for (attempt = 0; attempt <= maxRetries; ...)` loop of
`retryWithBackoff`; `remaining` counts the retries left after the current
attempt. Returns the loop result and the number of invocations made. -/
def retryLoop (op : Nat → Except ε τ) (isRetryable : ε → Bool) :
    Nat → Nat → RetryLoopResult ε τ × Nat
  | attempt, remaining =>
    match op attempt with
    | .ok v => (.ok v, 1)
    | .error e =>
      if isRetryable e then
        match remaining with
        | 0 => (.allFailed e, 1)
        | r + 1 =>
          let rest := retryLoop op isRetryable (attempt + 1) r
          (rest.1, rest.2 + 1)
      else (.raised e, 1)

/-- `retryWithBackoff` from `src/utils/retry.util.ts`: invoke the operation
up to `maxRetries + 1` times; re-raise a non-retryable error immediately;
raise `RetryExhaustedError(maxRetries + 1, lastError)` when every attempt
failed retryably. The backoff sleeps affect timing only and are elided. -/
def retryWithBackoff (op : Nat → Except ε τ) (options : RetryOptions)
    (isRetryable : ε → Bool) : RetryRun ε τ :=
  match retryLoop op isRetryable 0 options.maxRetries with
  | (.ok v, c) => ⟨.ok v, c⟩
  | (.raised e, c) => ⟨.raised e, c⟩
  | (.allFailed e, c) => ⟨.exhausted (options.maxRetries + 1) e, c⟩

/-- An error raised by `fetchWeatherData`: an `Error` with a `message` and
an optional attached HTTP `statusCode`. -/
structure FetchError where
  message : String
  statusCode : Option Nat
deriving DecidableEq

/-- `pat` occurs as a contiguous sublist of `s`
(JavaScript `String.prototype.includes`). -/
def listIncludes [DecidableEq α] (pat : List α) : List α → Bool
  | [] => pat.isEmpty
  | a :: tail => pat.isPrefixOf (a :: tail) || listIncludes pat tail

/-- JavaScript `s.includes(pat)` on strings. -/
def strIncludes (s pat : String) : Bool :=
  listIncludes pat.toList s.toList

/-- JavaScript `s.toLowerCase()`. -/
def toLowerStr (s : String) : String :=
  String.mk (s.toList.map Char.toLower)

/-- `isNetworkError` from `src/utils/retry.util.ts`. -/
def isNetworkError (e : FetchError) : Bool :=
  let m := toLowerStr e.message
  strIncludes m "timeout" || strIncludes m "econnrefused"
    || strIncludes m "enotfound" || strIncludes m "network"

/-- `OpenMeteoWeatherProvider.isRetryableError`: network errors, HTTP 429
and HTTP 5xx are retryable; everything else (including Open-Meteo API
errors) is not. -/
def isRetryableError (e : FetchError) : Bool :=
  if isNetworkError e then true
  else
    match e.statusCode with
    | some sc => sc == 429 || (500 ≤ sc && sc < 600)
    | none => false

/-- The `hourly` block of an Open-Meteo archive response. -/
structure OpenMeteoHourly where
  time : List String
  temperature_2m : List (Option Rat)
  wind_speed_10m : List (Option Rat)
  wind_direction_10m : List (Option Rat)
deriving DecidableEq

/-- An Open-Meteo archive response as seen by `parseWeatherResponse`
(HTTP errors and the `error: true` body are raised inside
`fetchWeatherData`, which is modelled as the fallible oracle). -/
structure OpenMeteoResponse where
  hourly : Option OpenMeteoHourly
deriving DecidableEq

/-- Two-digit zero-padded hour (`padStart(2, '0')`). -/
def pad2 (h : Nat) : String :=
  if h < 10 then "0" ++ toString h else toString h

/-- JavaScript `Math.round(x * 10) / 10` (round half toward positive
infinity at one decimal). -/
def round1 (x : Rat) : Rat :=
  mkRat ⌊x * 10 + mkRat 1 2⌋ 10

/-- `OpenMeteoWeatherProvider.parseWeatherResponse`: pick the hourly slot
matching the arrival's UTC hour, require temperature and wind speed to be
non-null, convert wind speed from km/h to m/s, round both to one decimal. -/
def parseWeatherResponse (response : OpenMeteoResponse)
    (targetDate : DateTime) : WeatherResult :=
  match response.hourly with
  | none => .NO_DATA_AVAILABLE (some "No hourly data returned from API")
  | some hourly =>
    if hourly.time.isEmpty then
      .NO_DATA_AVAILABLE (some "No hourly data returned from API")
    else
      let targetHourStr := pad2 targetDate.hour
      match hourly.time.findIdx?
          (fun t => strIncludes t ("T" ++ targetHourStr ++ ":")) with
      | none =>
        .NO_DATA_AVAILABLE
          (some ("No data found for hour " ++ targetHourStr ++ ":00 UTC"))
      | some index =>
        match (hourly.temperature_2m.get? index).join with
        | none => .NO_DATA_AVAILABLE (some "Temperature data is null")
        | some tempCelsius =>
          match (hourly.wind_speed_10m.get? index).join with
          | none => .NO_DATA_AVAILABLE (some "Wind speed data is null")
          | some windSpeedKmh =>
            .SUCCESS
              ⟨some (round1 tempCelsius),
                some (round1 (windSpeedKmh / mkRat 36 10)),
                (hourly.wind_direction_10m.get? index).join⟩

/-- `OpenMeteoWeatherProvider.getWeather`. `today` is the current epoch
day (`new Date()` floored to midnight); `fetchOp` is the `fetchWeatherData`
oracle indexed by attempt. Returns the weather result plus a ghost flag
recording whether any network fetch was attempted. The provider catches
both `RetryExhaustedError` and all other raised errors and converts them to
returned `RETRY_EXHAUSTED` / `FATAL_ERROR` results: it never itself
raises. -/
def openMeteoGetWeather (today : Int)
    (fetchOp : Nat → Except FetchError OpenMeteoResponse)
    (retryOptions : RetryOptions) (_latitude _longitude : Rat)
    (date : DateTime) : WeatherResult × Bool :=
  if today < date.day then
    (.NO_DATA_AVAILABLE
      (some ("Archive API only supports historical data. Requested date "
        ++ toString date.day ++ " is in the future.")), false)
  else
    match retryWithBackoff fetchOp retryOptions isRetryableError with
    | ⟨.ok response, _⟩ => (parseWeatherResponse response date, true)
    | ⟨.exhausted attempts e, _⟩ =>
      (.RETRY_EXHAUSTED ("Failed to fetch weather data after "
        ++ toString attempts ++ " attempts: " ++ e.message), true)
    | ⟨.raised e, _⟩ => (.FATAL_ERROR e.message, true)

/-- The `IWeatherProvider` the DI container wires into the analyzer: the
Open-Meteo provider, which returns every failure as a result value and
never raises into `fetchWeatherSafely`. -/
def composedOpenMeteoGetWeather (today : Int)
    (fetchOp : Nat → Except FetchError OpenMeteoResponse)
    (retryOptions : RetryOptions) :
    Rat → Rat → DateTime → Except String WeatherResult :=
  fun latitude longitude date =>
    .ok (openMeteoGetWeather today fetchOp retryOptions latitude longitude
      date).1

/-- The keyword vocabulary of `KeywordDelayAnalyzerService`. -/
def weatherKeywords : List String :=
  ["fog", "mist", "visibility", "storm", "thunderstorm", "hurricane",
   "typhoon", "cyclone", "wind", "gale", "breeze", "wave", "swell",
   "sea state", "rain", "precipitation", "downpour", "snow", "ice",
   "freeze", "weather", "meteorological", "atmospheric"]

/-- `KeywordDelayAnalyzerService.analyzeDelay`: case-insensitive substring
match against the keyword vocabulary; confidence 0.7 on a match, 0.9
otherwise. Pure and deterministic. -/
def keywordAnalyzeDelay (delayReason : String) : DelayAnalysisResult :=
  let lowerReason := toLowerStr delayReason
  let isWeather := weatherKeywords.any (fun kw => strIncludes lowerReason kw)
  { isWeatherRelated := isWeather
    reasoning :=
      if isWeather then
        "Matched weather keywords: " ++ String.intercalate ", "
          (weatherKeywords.filter (fun kw => strIncludes lowerReason kw))
      else "No weather keywords found"
    confidence := if isWeather then mkRat 7 10 else mkRat 9 10 }

/-- The `"${errorType}: ${message}"` formatting in
`enrichRecordsWithErrors`. -/
def formatError (e : ShipmentAnalysisError) : String :=
  e.errorType ++ ": " ++ e.message

/-- The error map of `enrichRecordsWithErrors` (`Map<string, string>`
built by folding the error list, concatenating messages per key with
`"; "`), as a lookup function. -/
def buildErrorMap (errors : List ShipmentAnalysisError) :
    String → Option String :=
  errors.foldl
    (fun m e key =>
      if key = e.containerNumber then
        match m e.containerNumber with
        | some existing => some (existing ++ "; " ++ formatError e)
        | none => some (formatError e)
      else m key)
    (fun _ => none)

/-- JavaScript `a || b` on `string | undefined` values (an empty string
falls through; map values here are never empty). -/
def jsOrString (a b : Option String) : Option String :=
  match a with
  | some s => if s = "" then b else some s
  | none => b

/-- `enrichRecordsWithErrors` from `src/index.ts`: stamp every record with
the batch timestamp and attach
`errorMap.get(sglShipmentNo) || errorMap.get(containerNumber) || undefined`
as its `error` field. -/
def enrichRecordsWithErrors (records : List ShipmentAnalysisRecord)
    (errors : List ShipmentAnalysisError) (timestamp : String) :
    List ShipmentAnalysisRecord :=
  let m := buildErrorMap errors
  records.map (fun record =>
    { record with
      lastUpdated := timestamp
      error := jsOrString (m record.sglShipmentNo)
        (jsOrString (m record.containerNumber) none) })

/-- Spec-side (written from the spec's words, for comparison with the
embedded code): the verdict the confidence gate accepts for one reason —
the first classification if it meets the threshold, else the retry if it
meets the threshold, else no verdict. -/
def specAcceptedVerdict (an : Nat → String → DelayAnalysisResult)
    (reason : String) (k : Nat) : Option DelayAnalysisResult :=
  if CONFIDENCE_THRESHOLD ≤ (an k reason).confidence then some (an k reason)
  else if CONFIDENCE_THRESHOLD ≤ (an (k + 1) reason).confidence then
    some (an (k + 1) reason)
  else none

/-- Spec-side: number of classifier calls the gate makes for one reason
(one if the first attempt meets the threshold, two otherwise). -/
def specCallsUsed (an : Nat → String → DelayAnalysisResult)
    (reason : String) (k : Nat) : Nat :=
  if CONFIDENCE_THRESHOLD ≤ (an k reason).confidence then 1 else 2

/-- Spec-side: "the container is judged weather-related iff some reason,
processed in list order, yields an accepted `isWeatherRelated = true`
verdict" — a direct recursion over the reason list. -/
def specHasAcceptedWeather (an : Nat → String → DelayAnalysisResult) :
    List String → Nat → Bool
  | [], _ => false
  | reason :: rest, k =>
    match specAcceptedVerdict an reason k with
    | some a =>
      if a.isWeatherRelated then true
      else specHasAcceptedWeather an rest (k + specCallsUsed an reason k)
    | none => specHasAcceptedWeather an rest (k + specCallsUsed an reason k)

/-- Spec-side (claim C1): number of records an input id should contribute —
one placeholder if its shipment lookup is not success-with-data, otherwise
one per container. -/
def foundContainerCount (r : Result Shipment) : Nat :=
  match r with
  | .success s _ => s.containers.length
  | _ => 0

/-- Spec-side (claim C4): the formatted messages of all errors whose key
equals `key`, in error-list order. -/
def messagesForKey (errors : List ShipmentAnalysisError) (key : String) :
    List String :=
  (errors.filter (fun e => e.containerNumber = key)).map formatError

/-- Spec-side (claim C4, as the spec words it): the `"; "`-join of all
error messages whose key matches the record's shipment identifier or its
container identifier; absent when none matches. -/
def specErrorFor (errors : List ShipmentAnalysisError)
    (record : ShipmentAnalysisRecord) : Option String :=
  let msgs := (errors.filter (fun e =>
    e.containerNumber = record.sglShipmentNo
      ∨ e.containerNumber = record.containerNumber)).map formatError
  if msgs = [] then none else some (joinSemi msgs)

/-- The error attachment the code actually performs (claim C4, amended):
all shipment-keyed messages if any, else all container-keyed messages,
else absent. -/
def codeErrorFor (errors : List ShipmentAnalysisError)
    (record : ShipmentAnalysisRecord) : Option String :=
  if messagesForKey errors record.sglShipmentNo ≠ [] then
    some (joinSemi (messagesForKey errors record.sglShipmentNo))
  else if messagesForKey errors record.containerNumber ≠ [] then
    some (joinSemi (messagesForKey errors record.containerNumber))
  else none

/-- How `combineMap` folds an existing map value with later matching
messages (spec-side bookkeeping for `buildErrorMap`). -/
def combineMap (o : Option String) (l : List String) : Option String :=
  match o, l with
  | none, [] => none
  | none, l => some (joinSemi l)
  | some s, l => some (joinSemi (s :: l))

/-- Fixture: a classifier whose every answer is a high-confidence
weather-related verdict. -/
def anAccept : Nat → String → DelayAnalysisResult :=
  fun _ _ => ⟨true, "high", mkRat 95 100⟩

/-- Fixture: a shipment with two containers. -/
def shFix : Shipment := ⟨"SGL1", "Acme", "Shipper Co", [⟨"C1"⟩, ⟨"C2"⟩]⟩

/-- Fixture: collaborators where every tracking lookup is not-found. -/
def envTrackNotFound : AnalyzerEnv :=
  { getShipmentById := fun _ => .success shFix "ok"
    getTrackingByContainer := fun _ => .notFound "tracking not found"
    analyzeDelay := fun _ _ => ⟨false, "none", mkRat 9 10⟩
    getWeather := fun _ _ _ => .ok (.NO_DATA_AVAILABLE none)
    now := "T0" }

/-- Fixture: collaborators where the shipment lookup fails for id
`"S-BAD"` and succeeds otherwise. -/
def envMixed : AnalyzerEnv :=
  { getShipmentById := fun id =>
      if id = "S-BAD" then .failure "tms down" else .success shFix "ok"
    getTrackingByContainer := fun _ => .notFound "tracking not found"
    analyzeDelay := fun _ _ => ⟨false, "none", mkRat 9 10⟩
    getWeather := fun _ _ _ => .ok (.NO_DATA_AVAILABLE none)
    now := "T0" }

/-- Fixture: a weather fetch that raises a retryable network timeout on
every attempt. -/
def fetchFail : Nat → Except FetchError OpenMeteoResponse :=
  fun _ => .error ⟨"network timeout", none⟩

/-- Fixture: a weather fetch that raises a non-retryable HTTP 400 API
error on every attempt. -/
def opNotRetryable : Nat → Except FetchError OpenMeteoResponse :=
  fun _ => .error ⟨"Open-Meteo API error: invalid parameters", some 400⟩

/-- Fixture: one retry (two attempts total). -/
def retryOptsFix : RetryOptions := ⟨1, mkRat 1 1, mkRat 10 1, mkRat 1 10⟩

/-- Fixture: a destination port. -/
def geoFix : GeoLocation := ⟨mkRat 51 1, mkRat 5 1, none⟩

/-- Fixture: tracking data with port and arrival present and one
weather-hinting delay reason. -/
def trackFull : Tracking :=
  ⟨"C1", "MAEU", ⟨0, 0⟩, some ⟨0, 12⟩, ["fog"], some geoFix⟩

/-- Fixture: tracking data with no destination port. -/
def trackNoPort : Tracking :=
  ⟨"C1", "MAEU", ⟨0, 0⟩, some ⟨0, 12⟩, ["fog"], none⟩

/-- Fixture: a record whose shipment id is `"S1"` and container `"C1"`. -/
def recFix : ShipmentAnalysisRecord :=
  ⟨"S1", "Acme", "Shipper Co", "C1", none, none, none, none, none, none,
    none, "T0", none⟩

/-- Fixture: one error keyed by the record's shipment id and one keyed by
its container number. -/
def errsFix : List ShipmentAnalysisError :=
  [⟨"S1", "SHIPMENT_FETCH_ERROR", "m1"⟩, ⟨"C1", "WEATHER_FETCH_ERROR", "m2"⟩]


lemma gate_verdict_eq (an : Nat → String → DelayAnalysisResult)
    (reason c : String) (k : Nat) :
    (analyzeDelayWithConfidenceCheck an reason c k).verdict
      = specAcceptedVerdict an reason k := by
  by_cases h1 : CONFIDENCE_THRESHOLD ≤ (an k reason).confidence <;>
    by_cases h2 : CONFIDENCE_THRESHOLD ≤ (an (k + 1) reason).confidence <;>
    simp [analyzeDelayWithConfidenceCheck, specAcceptedVerdict, h1, h2]

lemma gate_nextCall_eq (an : Nat → String → DelayAnalysisResult)
    (reason c : String) (k : Nat) :
    (analyzeDelayWithConfidenceCheck an reason c k).nextCall
      = k + specCallsUsed an reason k := by
  by_cases h1 : CONFIDENCE_THRESHOLD ≤ (an k reason).confidence <;>
    by_cases h2 : CONFIDENCE_THRESHOLD ≤ (an (k + 1) reason).confidence <;>
    simp [analyzeDelayWithConfidenceCheck, specCallsUsed, h1, h2]

lemma gate_newErrors_of_verdict (an : Nat → String → DelayAnalysisResult)
    (reason c : String) (k : Nat) (a : DelayAnalysisResult)
    (h : (analyzeDelayWithConfidenceCheck an reason c k).verdict = some a) :
    (analyzeDelayWithConfidenceCheck an reason c k).newErrors = [] := by
  by_cases h1 : CONFIDENCE_THRESHOLD ≤ (an k reason).confidence
  · simp [analyzeDelayWithConfidenceCheck, h1]
  · by_cases h2 : CONFIDENCE_THRESHOLD ≤ (an (k + 1) reason).confidence
    · simp [analyzeDelayWithConfidenceCheck, h1, h2]
    · simp [analyzeDelayWithConfidenceCheck, h1, h2] at h

/-- Claim C2: for every delay reason the classifier is called at most
twice; a first attempt meeting the 0.8 threshold ends the gate after
exactly one call with that verdict accepted; otherwise a second call is
made, accepted iff it meets the threshold, and a double miss discards the
verdict and appends exactly one `DELAY_ANALYSIS_LOW_CONFIDENCE` error
carrying the final confidence value and the reason text. -/
theorem analyzeDelayWithConfidenceCheck_confidence_gate
    (an : Nat → String → DelayAnalysisResult) (reason c : String) (k : Nat) :
    ((analyzeDelayWithConfidenceCheck an reason c k).nextCall = k + 1 ∨
      (analyzeDelayWithConfidenceCheck an reason c k).nextCall = k + 2) ∧
    (CONFIDENCE_THRESHOLD ≤ (an k reason).confidence →
      analyzeDelayWithConfidenceCheck an reason c k
        = ⟨some (an k reason), k + 1, []⟩) ∧
    ((an k reason).confidence < CONFIDENCE_THRESHOLD →
      (CONFIDENCE_THRESHOLD ≤ (an (k + 1) reason).confidence →
        analyzeDelayWithConfidenceCheck an reason c k
          = ⟨some (an (k + 1) reason), k + 2, []⟩) ∧
      ((an (k + 1) reason).confidence < CONFIDENCE_THRESHOLD →
        analyzeDelayWithConfidenceCheck an reason c k
          = ⟨none, k + 2,
              [⟨c, "DELAY_ANALYSIS_LOW_CONFIDENCE",
                lowConfidenceMessage ((an (k + 1) reason).confidence)
                  reason⟩]⟩)) := by
  by_cases h1 : CONFIDENCE_THRESHOLD ≤ (an k reason).confidence <;>
    by_cases h2 : CONFIDENCE_THRESHOLD ≤ (an (k + 1) reason).confidence <;>
    simp [analyzeDelayWithConfidenceCheck, h1, h2, not_lt.mpr,
      lt_of_not_ge, not_lt_of_ge]

/-- Claim C3: delay reasons are processed in list order and the container
is judged weather-related iff some reason yields an accepted
`isWeatherRelated = true` verdict (spec-side recursion
`specHasAcceptedWeather`); once a reason's accepted verdict is
weather-related the scan stops without classifying the remaining reasons;
and in `processContainer` the weather fetch is entered — observable as a
populated `weatherFetchStatus` — exactly when tracking resolved and that
scan succeeded. -/
theorem hasWeatherRelatedDelay_short_circuit
    (an : Nat → String → DelayAnalysisResult) (c : String)
    (env : AnalyzerEnv) (sh : Shipment) :
    (∀ reasons k, (hasWeatherRelatedDelay an reasons c k).found
        = specHasAcceptedWeather an reasons k) ∧
    (∀ reason rest k a, specAcceptedVerdict an reason k = some a →
        a.isWeatherRelated = true →
        hasWeatherRelatedDelay an (reason :: rest) c k
          = ⟨true, k + specCallsUsed an reason k, []⟩) ∧
    (∀ cn k, (processContainer env sh cn k).weatherAttempted
        = (match env.getTrackingByContainer cn with
          | .success t _ =>
            (hasWeatherRelatedDelay env.analyzeDelay t.delayReasons cn k).found
          | _ => false)) ∧
    (∀ cn k, (processContainer env sh cn k).record.weatherFetchStatus.isSome
        = (processContainer env sh cn k).weatherAttempted) := by
  refine ⟨?_, ?_, ?_, ?_⟩
  · intro reasons
    induction reasons with
    | nil => intro k; rfl
    | cons r rest ih =>
      intro k
      simp only [hasWeatherRelatedDelay, specHasAcceptedWeather,
        gate_verdict_eq, gate_nextCall_eq]
      cases h : specAcceptedVerdict an r k with
      | none => simp [ih]
      | some a => cases ha : a.isWeatherRelated <;> simp [ha, ih]
  · intro reason rest k a hv hw
    have hv' := gate_verdict_eq an reason c k
    rw [hv] at hv'
    simp only [hasWeatherRelatedDelay, hv']
    simp [hw, gate_newErrors_of_verdict an reason c k a hv',
      gate_nextCall_eq]
  · intro cn k
    cases h : env.getTrackingByContainer cn with
    | success t m =>
      simp only [processContainer, h]
      split <;> simp_all
    | notFound m => simp [processContainer, h]
    | failure m => simp [processContainer, h]
  · intro cn k
    cases h : env.getTrackingByContainer cn with
    | success t m =>
      simp only [processContainer, h]
      split
      · split <;> simp [buildBaseRecord]
      · simp [buildBaseRecord]
    | notFound m => simp [processContainer, h, buildBaseRecord]
    | failure m => simp [processContainer, h, buildBaseRecord]

/-- Claim C7: a call to the Open-Meteo weather source whose arrival date
(day-only comparison) is strictly after today's date returns
`NO_DATA_AVAILABLE` and makes no network call. -/
theorem openMeteoGetWeather_future_short_circuit (today : Int)
    (fetchOp : Nat → Except FetchError OpenMeteoResponse)
    (retryOptions : RetryOptions) (latitude longitude : Rat)
    (date : DateTime) (h : today < date.day) :
    openMeteoGetWeather today fetchOp retryOptions latitude longitude date
      = (.NO_DATA_AVAILABLE
          (some ("Archive API only supports historical data. Requested date "
            ++ toString date.day ++ " is in the future.")), false) := by
  simp [openMeteoGetWeather, h]

/-- Claim C8: a tracking lookup that returns success-without-data (not
found) appends no error and still emits the base record with only
shipment-level fields populated; a tracking lookup failure appends exactly
one `TRACKING_FETCH_ERROR` and emits that same base record with tracking
fields absent. -/
theorem processContainer_tracking_tristate (env : AnalyzerEnv)
    (sh : Shipment) (cn : String) (k : Nat) :
    (buildBaseRecord sh cn none env.now
      = { sglShipmentNo := sh.shipmentId
          customerName := sh.customerName
          shipperName := sh.shipperName
          containerNumber := cn
          scac := none
          initialCarrierETA := none
          actualArrivalAt := none
          delayReasons := none
          temperature := none
          windSpeed := none
          weatherFetchStatus := none
          lastUpdated := env.now
          error := none }) ∧
    (∀ m, env.getTrackingByContainer cn = .notFound m →
      processContainer env sh cn k
        = ⟨buildBaseRecord sh cn none env.now, [], k, false, false⟩) ∧
    (∀ m, env.getTrackingByContainer cn = .failure m →
      processContainer env sh cn k
        = ⟨buildBaseRecord sh cn none env.now,
            [⟨cn, "TRACKING_FETCH_ERROR", m⟩], k, false, false⟩) := by
  refine ⟨by simp [buildBaseRecord], ?_, ?_⟩
  · intro m h
    simp [processContainer, h]
  · intro m h
    simp [processContainer, h]

/-- Claim C9: when the container is judged weather-related but
`destinationPort` or `actualArrival` is missing, `fetchWeatherSafely`
returns `NO_DATA_AVAILABLE` without calling the provider and without
appending an error; `processContainer` then stamps the record's
`weatherFetchStatus` with `NO_DATA_AVAILABLE`. -/
theorem fetchWeatherSafely_missing_precondition
    (gw : Rat → Rat → DateTime → Except String WeatherResult)
    (tracking : Tracking) (cn : String)
    (h : tracking.destinationPort = none ∨ tracking.actualArrival = none) :
    fetchWeatherSafely gw tracking cn
      = ⟨.NO_DATA_AVAILABLE (some "Missing port location or arrival date"),
          [], false⟩ ∧
    (∀ env sh k m, env.getTrackingByContainer cn = .success tracking m →
      env.getWeather = gw →
      (hasWeatherRelatedDelay env.analyzeDelay tracking.delayReasons cn
        k).found = true →
      (processContainer env sh cn k).record.weatherFetchStatus
          = some .NO_DATA_AVAILABLE ∧
        (processContainer env sh cn k).providerCalled = false) := by
  have hfw : fetchWeatherSafely gw tracking cn
      = ⟨.NO_DATA_AVAILABLE (some "Missing port location or arrival date"),
          [], false⟩ := by
    rcases h with h | h <;>
      · unfold fetchWeatherSafely
        rcases hp : tracking.destinationPort with _ | p <;>
          rcases ha : tracking.actualArrival with _ | a <;> simp_all
  refine ⟨hfw, ?_⟩
  intro env sh k m htr hgw hfound
  simp only [processContainer, htr, hfound, hgw, hfw]
  simp [WeatherResult.status]

lemma keyword_confidence_eq (r : String) :
    (keywordAnalyzeDelay r).confidence
      = if (keywordAnalyzeDelay r).isWeatherRelated then mkRat 7 10
        else mkRat 9 10 := by
  simp only [keywordAnalyzeDelay]

lemma keywordGate_eq (r c : String) (k : Nat) :
    analyzeDelayWithConfidenceCheck (fun _ s => keywordAnalyzeDelay s) r c k
      = if (keywordAnalyzeDelay r).isWeatherRelated then
          ⟨none, k + 2,
            [⟨c, "DELAY_ANALYSIS_LOW_CONFIDENCE",
              lowConfidenceMessage (mkRat 7 10) r⟩]⟩
        else ⟨some (keywordAnalyzeDelay r), k + 1, []⟩ := by
  have hc := keyword_confidence_eq r
  by_cases h : (keywordAnalyzeDelay r).isWeatherRelated = true
  · have h7 : (keywordAnalyzeDelay r).confidence = mkRat 7 10 := by
      rw [hc, if_pos h]
    have hlt : ¬ CONFIDENCE_THRESHOLD ≤ mkRat 7 10 := by decide
    simp [analyzeDelayWithConfidenceCheck, h7, hlt, h]
  · have h9 : (keywordAnalyzeDelay r).confidence = mkRat 9 10 := by
      rw [hc, if_neg h]
    have hle : CONFIDENCE_THRESHOLD ≤ mkRat 9 10 := by decide
    simp [analyzeDelayWithConfidenceCheck, h9, hle, h]

lemma keywordScan_not_found (reasons : List String) (c : String) (k : Nat) :
    (hasWeatherRelatedDelay (fun _ s => keywordAnalyzeDelay s) reasons c
      k).found = false := by
  induction reasons generalizing k with
  | nil => rfl
  | cons r rest ih =>
    simp only [hasWeatherRelatedDelay, keywordGate_eq]
    by_cases h : (keywordAnalyzeDelay r).isWeatherRelated = true
    · simp [h, ih]
    · simp [h, ih]

/-- Claim C10: the keyword analyzer reports confidence 0.7 exactly on a
weather-keyword match and 0.9 otherwise; since 0.7 is below the 0.8
threshold, a weather-related keyword verdict is never accepted: with the
keyword analyzer as the classifier, `hasWeatherRelatedDelay` is always
false, `processContainer` never enters the weather fetch, and every reason
matching a weather keyword costs exactly two classifier calls and one
`DELAY_ANALYSIS_LOW_CONFIDENCE` error. -/
theorem keywordAnalyzer_never_accepted :
    (∀ r, (keywordAnalyzeDelay r).confidence
        = if (keywordAnalyzeDelay r).isWeatherRelated then mkRat 7 10
          else mkRat 9 10) ∧
    (mkRat 7 10 < CONFIDENCE_THRESHOLD) ∧
    (∀ r c k, (keywordAnalyzeDelay r).isWeatherRelated = true →
      analyzeDelayWithConfidenceCheck (fun _ s => keywordAnalyzeDelay s) r c k
        = ⟨none, k + 2,
            [⟨c, "DELAY_ANALYSIS_LOW_CONFIDENCE",
              lowConfidenceMessage (mkRat 7 10) r⟩]⟩) ∧
    (∀ reasons c k,
      (hasWeatherRelatedDelay (fun _ s => keywordAnalyzeDelay s) reasons c
        k).found = false) ∧
    (∀ (env : AnalyzerEnv) (sh : Shipment) (cn : String) (k : Nat),
      (processContainer
        { env with analyzeDelay := fun _ s => keywordAnalyzeDelay s }
        sh cn k).weatherAttempted = false) := by
  refine ⟨keyword_confidence_eq, by decide, ?_, keywordScan_not_found, ?_⟩
  · intro r c k h
    rw [keywordGate_eq, if_pos h]
  · intro env sh cn k
    cases h : env.getTrackingByContainer cn with
    | success t m =>
      simp [processContainer, h, keywordScan_not_found]
    | notFound m => simp [processContainer, h]
    | failure m => simp [processContainer, h]

lemma retryLoop_calls_le (op : Nat → Except ε τ) (isR : ε → Bool) :
    ∀ remaining attempt, (retryLoop op isR attempt remaining).2 ≤ remaining + 1 := by
  intro remaining
  induction remaining with
  | zero =>
    intro attempt
    unfold retryLoop
    cases h : op attempt with
    | ok v => simp
    | error e => by_cases hr : isR e <;> simp [hr]
  | succ r ih =>
    intro attempt
    unfold retryLoop
    cases h : op attempt with
    | ok v => simp
    | error e =>
      by_cases hr : isR e
      · have := ih (attempt + 1)
        simp only [hr, if_true]
        simpa using Nat.add_le_add_right this 1
      · simp [hr]

lemma retryLoop_allFailed_of (op : Nat → Except ε τ) (isR : ε → Bool) :
    ∀ remaining attempt,
      (∀ d, d ≤ remaining → ∃ e, op (attempt + d) = .error e ∧ isR e = true) →
      ∃ e, op (attempt + remaining) = .error e ∧
        retryLoop op isR attempt remaining = (.allFailed e, remaining + 1) := by
  intro remaining
  induction remaining with
  | zero =>
    intro attempt hall
    obtain ⟨e, he, hr⟩ := hall 0 (Nat.le_refl 0)
    rw [Nat.add_zero] at he
    refine ⟨e, by simpa using he, ?_⟩
    unfold retryLoop
    simp [he, hr]
  | succ r ih =>
    intro attempt hall
    obtain ⟨e0, he0, hr0⟩ := hall 0 (by omega)
    rw [Nat.add_zero] at he0
    obtain ⟨e, he, hloop⟩ := ih (attempt + 1) (fun d hd => by
      obtain ⟨e', h1, h2⟩ := hall (d + 1) (by omega)
      exact ⟨e', by rwa [show attempt + 1 + d = attempt + (d + 1) by omega], h2⟩)
    refine ⟨e, by rwa [show attempt + (r + 1) = attempt + 1 + r by omega], ?_⟩
    unfold retryLoop
    simp [he0, hr0, hloop]

lemma retryLoop_allFailed_inv (op : Nat → Except ε τ) (isR : ε → Bool) :
    ∀ remaining attempt e,
      (retryLoop op isR attempt remaining).1 = .allFailed e →
      (∀ d, d ≤ remaining → ∃ e', op (attempt + d) = .error e' ∧ isR e' = true)
      ∧ op (attempt + remaining) = .error e
      ∧ (retryLoop op isR attempt remaining).2 = remaining + 1 := by
  intro remaining
  induction remaining with
  | zero =>
    intro attempt e h
    cases hop : op attempt with
    | ok v =>
      unfold retryLoop at h
      rw [hop] at h
      simp at h
    | error e0 =>
      unfold retryLoop at h
      rw [hop] at h
      by_cases hr : isR e0
      · simp [hr] at h
        subst h
        refine ⟨?_, by simpa using hop, ?_⟩
        · intro d hd
          interval_cases d
          exact ⟨e0, by simpa using hop, hr⟩
        · unfold retryLoop
          simp [hop, hr]
      · simp [hr] at h
  | succ r ih =>
    intro attempt e h
    cases hop : op attempt with
    | ok v =>
      unfold retryLoop at h
      rw [hop] at h
      simp at h
    | error e0 =>
      unfold retryLoop at h
      rw [hop] at h
      by_cases hr : isR e0
      · simp only [hr, if_true] at h
        have hrec := ih (attempt + 1) e (by simpa using h)
        obtain ⟨hall, hlast, hcalls⟩ := hrec
        refine ⟨?_, ?_, ?_⟩
        · intro d hd
          cases d with
          | zero => exact ⟨e0, by simpa using hop, hr⟩
          | succ d' =>
            obtain ⟨e', h1, h2⟩ := hall d' (by omega)
            exact ⟨e', by rwa [show attempt + (d' + 1) = attempt + 1 + d'
              by omega], h2⟩
        · rwa [show attempt + (r + 1) = attempt + 1 + r by omega]
        · unfold retryLoop
          simp [hop, hr, hcalls]
      · simp [hr] at h
  
lemma retryLoop_raised_of (op : Nat → Except ε τ) (isR : ε → Bool) :
    ∀ i remaining attempt e, i ≤ remaining → op (attempt + i) = .error e →
      isR e = false →
      (∀ d, d < i → ∃ e', op (attempt + d) = .error e' ∧ isR e' = true) →
      retryLoop op isR attempt remaining = (.raised e, i + 1) := by
  intro i
  induction i with
  | zero =>
    intro remaining attempt e _ hop hr _
    rw [Nat.add_zero] at hop
    unfold retryLoop
    simp [hop, hr]
  | succ i ih =>
    intro remaining attempt e hle hop hr hall
    obtain ⟨e0, he0, hr0⟩ := hall 0 (by omega)
    rw [Nat.add_zero] at he0
    cases remaining with
    | zero => omega
    | succ r =>
      have hrec := ih r (attempt + 1) e (by omega)
        (by rwa [show attempt + 1 + i = attempt + (i + 1) by omega]) hr
        (fun d hd => by
          obtain ⟨e', h1, h2⟩ := hall (d + 1) (by omega)
          exact ⟨e', by rwa [show attempt + 1 + d = attempt + (d + 1)
            by omega], h2⟩)
      unfold retryLoop
      simp [he0, hr0, hrec]

/-- Claim C6: `retryWithBackoff` invokes the operation at most
`maxRetries + 1` times; a failure deemed non-retryable is re-raised
immediately and unchanged after exactly the attempts made so far; and it
raises a `RetryExhaustedError` — a distinct outcome carrying
`attempts = maxRetries + 1` and the last underlying error — exactly when
all `maxRetries + 1` attempts fail retryably. -/
theorem retryWithBackoff_contract (op : Nat → Except ε τ)
    (options : RetryOptions) (isR : ε → Bool) :
    ((retryWithBackoff op options isR).calls ≤ options.maxRetries + 1) ∧
    (∀ i e, i ≤ options.maxRetries → op i = .error e → isR e = false →
      (∀ j, j < i → ∃ e', op j = .error e' ∧ isR e' = true) →
      retryWithBackoff op options isR = ⟨.raised e, i + 1⟩) ∧
    ((∃ n e, (retryWithBackoff op options isR).outcome = .exhausted n e) ↔
      (∀ i, i ≤ options.maxRetries → ∃ e, op i = .error e ∧ isR e = true)) ∧
    (∀ n e, (retryWithBackoff op options isR).outcome = .exhausted n e →
      n = options.maxRetries + 1 ∧ op options.maxRetries = .error e ∧
      (retryWithBackoff op options isR).calls = options.maxRetries + 1) := by
  refine ⟨?_, ?_, ⟨?_, ?_⟩, ?_⟩
  · unfold retryWithBackoff
    have := retryLoop_calls_le op isR options.maxRetries 0
    rcases hl : retryLoop op isR 0 options.maxRetries with ⟨res, calls⟩
    rw [hl] at this
    cases res <;> simpa using this
  · intro i e hle hop hr hall
    have hloop := retryLoop_raised_of op isR i options.maxRetries 0 e hle
      (by simpa using hop) hr
      (fun d hd => by simpa using hall d hd)
    unfold retryWithBackoff
    rw [hloop]
  · rintro ⟨n, e, hex⟩ i hi
    unfold retryWithBackoff at hex
    rcases hl : retryLoop op isR 0 options.maxRetries with ⟨res, calls⟩
    rw [hl] at hex
    cases res with
    | ok v => simp at hex
    | raised e' => simp at hex
    | allFailed e' =>
      have hinv := retryLoop_allFailed_inv op isR options.maxRetries 0 e'
        (by rw [hl])
      obtain ⟨e'', h1, h2⟩ := hinv.1 i hi
      exact ⟨e'', by simpa using h1, h2⟩
  · intro hall
    obtain ⟨e, _, hloop⟩ := retryLoop_allFailed_of op isR options.maxRetries 0
      (fun d hd => by simpa using hall d hd)
    refine ⟨options.maxRetries + 1, e, ?_⟩
    unfold retryWithBackoff
    rw [hloop]
  · intro n e hex
    unfold retryWithBackoff at hex ⊢
    rcases hl : retryLoop op isR 0 options.maxRetries with ⟨res, calls⟩
    rw [hl] at hex
    cases res with
    | ok v => simp at hex
    | raised e' => simp at hex
    | allFailed e' =>
      simp at hex
      obtain ⟨hn, he⟩ := hex
      subst hn
      have hinv := retryLoop_allFailed_inv op isR options.maxRetries 0 e'
        (by rw [hl])
      refine ⟨rfl, ?_, ?_⟩
      · rw [← he]
        simpa using hinv.2.1
      · have := hinv.2.2
        rw [hl] at this
        simpa using this

lemma joinSemi_append_head (a b : String) (l : List String) :
    joinSemi ((a ++ "; " ++ b) :: l) = a ++ "; " ++ joinSemi (b :: l) := by
  cases l with
  | nil => rfl
  | cons x xs =>
    show (a ++ "; " ++ b) ++ "; " ++ joinSemi (x :: xs)
      = a ++ "; " ++ (b ++ "; " ++ joinSemi (x :: xs))
    simp [String.append_assoc]

lemma messagesForKey_cons (e : ShipmentAnalysisError)
    (es : List ShipmentAnalysisError) (key : String) :
    messagesForKey (e :: es) key
      = if e.containerNumber = key then
          formatError e :: messagesForKey es key
        else messagesForKey es key := by
  by_cases h : e.containerNumber = key <;>
    simp [messagesForKey, h]

lemma buildErrorMap_fold (errors : List ShipmentAnalysisError) :
    ∀ (m : String → Option String) (key : String),
      (errors.foldl
        (fun m e key =>
          if key = e.containerNumber then
            match m e.containerNumber with
            | some existing => some (existing ++ "; " ++ formatError e)
            | none => some (formatError e)
          else m key)
        m) key
      = combineMap (m key) (messagesForKey errors key) := by
  induction errors with
  | nil =>
    intro m key
    cases h : m key <;> simp [messagesForKey, combineMap, h, joinSemi]
  | cons e es ih =>
    intro m key
    rw [List.foldl_cons, ih, messagesForKey_cons]
    by_cases hk : e.containerNumber = key
    · subst hk
      cases hm : m e.containerNumber with
      | none =>
        cases hl : messagesForKey es e.containerNumber with
        | nil => simp [combineMap, hm, hl]
        | cons x xs => simp [combineMap, hm, hl]
      | some s =>
        cases hl : messagesForKey es e.containerNumber with
        | nil => simp [combineMap, hm, hl, joinSemi]
        | cons x xs =>
          simp only [hm, hl, eq_self_iff_true, if_true, combineMap]
          rw [joinSemi_append_head]
          rfl
    · have hk' : ¬ key = e.containerNumber := fun h => hk h.symm
      simp [hk, hk']

lemma buildErrorMap_eq (errors : List ShipmentAnalysisError) (key : String) :
    buildErrorMap errors key
      = match messagesForKey errors key with
        | [] => none
        | l => some (joinSemi l) := by
  unfold buildErrorMap
  rw [buildErrorMap_fold]
  cases messagesForKey errors key <;> rfl

lemma formatError_length (e : ShipmentAnalysisError) :
    2 ≤ (formatError e).length := by
  simp only [formatError, String.length_append]
  have : (": " : String).length = 2 := rfl
  omega

lemma joinSemi_head_length (x : String) (xs : List String) :
    x.length ≤ (joinSemi (x :: xs)).length := by
  cases xs with
  | nil => simp [joinSemi]
  | cons y ys =>
    show x.length ≤ (x ++ "; " ++ joinSemi (y :: ys)).length
    simp only [String.length_append]
    omega

lemma buildErrorMap_ne_empty (errors : List ShipmentAnalysisError)
    (key s : String) (h : buildErrorMap errors key = some s) : s ≠ "" := by
  rw [buildErrorMap_eq] at h
  cases hl : messagesForKey errors key with
  | nil => rw [hl] at h; simp at h
  | cons x xs =>
    rw [hl] at h
    simp only [Option.some.injEq] at h
    have hx : 2 ≤ x.length := by
      have : x ∈ messagesForKey errors key := by rw [hl]; exact List.mem_cons_self x xs
      obtain ⟨e, _, he⟩ := List.mem_map.mp this
      rw [← he]
      exact formatError_length e
    have := joinSemi_head_length x xs
    intro hs
    rw [h, hs] at this
    simp at this
    omega

lemma enrich_error_eq (errors : List ShipmentAnalysisError)
    (r : ShipmentAnalysisRecord) :
    jsOrString (buildErrorMap errors r.sglShipmentNo)
        (jsOrString (buildErrorMap errors r.containerNumber) none)
      = codeErrorFor errors r := by
  cases h1 : buildErrorMap errors r.sglShipmentNo with
  | some s =>
    have hs := buildErrorMap_ne_empty errors _ s h1
    rw [buildErrorMap_eq] at h1
    cases hl1 : messagesForKey errors r.sglShipmentNo with
    | nil => rw [hl1] at h1; simp at h1
    | cons x xs =>
      rw [hl1] at h1
      simp only [Option.some.injEq] at h1
      simp [jsOrString, hs, codeErrorFor, hl1, h1]
  | none =>
    rw [buildErrorMap_eq] at h1
    cases hl1 : messagesForKey errors r.sglShipmentNo with
    | cons x xs => rw [hl1] at h1; simp at h1
    | nil =>
      cases h2 : buildErrorMap errors r.containerNumber with
      | some s2 =>
        have hs2 := buildErrorMap_ne_empty errors _ s2 h2
        rw [buildErrorMap_eq] at h2
        cases hl2 : messagesForKey errors r.containerNumber with
        | nil => rw [hl2] at h2; simp at h2
        | cons y ys =>
          rw [hl2] at h2
          simp only [Option.some.injEq] at h2
          simp [jsOrString, hs2, codeErrorFor, hl1, hl2, h2]
      | none =>
        rw [buildErrorMap_eq] at h2
        cases hl2 : messagesForKey errors r.containerNumber with
        | cons y ys => rw [hl2] at h2; simp at h2
        | nil => simp [jsOrString, codeErrorFor, hl1, hl2]

/-- Claim C4 (amended): each enriched record's `error` field is the
`"; "`-join of all error messages keyed by its shipment identifier when
any exist, otherwise the join of all error messages keyed by its container
identifier, otherwise absent (the code consults the shipment key first and
falls back to the container key; it does not merge the two groups). -/
theorem enrichRecordsWithErrors_error_attachment
    (records : List ShipmentAnalysisRecord)
    (errors : List ShipmentAnalysisError) (timestamp : String) :
    (enrichRecordsWithErrors records errors timestamp).map (fun r => r.error)
      = records.map (fun r => codeErrorFor errors r) := by
  simp only [enrichRecordsWithErrors, List.map_map]
  refine List.map_congr_left ?_
  intro r _
  simpa using enrich_error_eq errors r

/-- Claim C5 (amended): with the Open-Meteo provider wired in, retry
exhaustion inside the provider yields a record status `RETRY_EXHAUSTED`
but appends no error entry (the provider converts `RetryExhaustedError`
into a returned result, so `fetchWeatherSafely`'s catch never fires);
an error actually raised out of the provider yields status `FATAL_ERROR`
and exactly one `WEATHER_FETCH_ERROR` entry. -/
theorem fetchWeatherSafely_failure_accounting
    (today : Int) (fetchOp : Nat → Except FetchError OpenMeteoResponse)
    (opts : RetryOptions) (tracking : Tracking) (cn : String)
    (port : GeoLocation) (arrival : DateTime)
    (hp : tracking.destinationPort = some port)
    (ha : tracking.actualArrival = some arrival)
    (hpast : arrival.day ≤ today)
    (hfail : ∀ i, i ≤ opts.maxRetries →
      ∃ e, fetchOp i = .error e ∧ isRetryableError e = true) :
    (∃ e, fetchOp opts.maxRetries = .error e ∧
      fetchWeatherSafely (composedOpenMeteoGetWeather today fetchOp opts)
        tracking cn
        = ⟨.RETRY_EXHAUSTED ("Failed to fetch weather data after "
            ++ toString (opts.maxRetries + 1) ++ " attempts: " ++ e.message),
          [], true⟩) ∧
    (∀ (gw : Rat → Rat → DateTime → Except String WeatherResult)
        (msg : String),
      gw port.latitude port.longitude arrival = .error msg →
      fetchWeatherSafely gw tracking cn
        = ⟨.FATAL_ERROR msg, [⟨cn, "WEATHER_FETCH_ERROR", msg⟩], true⟩) := by
  constructor
  · obtain ⟨e, he, hloop⟩ := retryLoop_allFailed_of fetchOp isRetryableError
      opts.maxRetries 0 (fun d hd => by simpa using hfail d hd)
    refine ⟨e, by simpa using he, ?_⟩
    unfold fetchWeatherSafely
    rw [hp, ha]
    simp only [composedOpenMeteoGetWeather, openMeteoGetWeather,
      if_neg (not_lt.mpr hpast)]
    unfold retryWithBackoff
    rw [hloop]
  · intro gw msg hgw
    unfold fetchWeatherSafely
    rw [hp, ha]
    dsimp only
    rw [hgw]

lemma processContainers_records_length (env : AnalyzerEnv) (sh : Shipment) :
    ∀ (cs : List Container) (k : Nat),
      (processContainers env sh cs k).records.length = cs.length := by
  intro cs
  induction cs with
  | nil => intro k; rfl
  | cons c rest ih =>
    intro k
    simp [processContainers, ih]

lemma processShipment_records_length (env : AnalyzerEnv) (id : String)
    (k : Nat) :
    (processShipment env id k).records.length
      = if (env.getShipmentById id).isSuccess then
          foundContainerCount (env.getShipmentById id)
        else 1 := by
  cases h : env.getShipmentById id <;>
    simp [processShipment, h, Result.isSuccess, foundContainerCount,
      processContainers_records_length]

lemma processChunk_records_length (env : AnalyzerEnv) :
    ∀ (ids : List String) (k : Nat),
      (processChunk env ids k).records.length
        = (ids.map (fun id =>
            if (env.getShipmentById id).isSuccess then
              foundContainerCount (env.getShipmentById id)
            else 1)).sum := by
  intro ids
  induction ids with
  | nil => intro k; rfl
  | cons id rest ih =>
    intro k
    simp [processChunk, ih, processShipment_records_length]

lemma processChunks_records_length (env : AnalyzerEnv) :
    ∀ (chunks : List (List String)) (k : Nat),
      (processChunks env chunks k).records.length
        = (chunks.map (fun chunk =>
            (chunk.map (fun id =>
              if (env.getShipmentById id).isSuccess then
                foundContainerCount (env.getShipmentById id)
              else 1)).sum)).sum := by
  intro chunks
  induction chunks with
  | nil => intro k; rfl
  | cons chunk rest ih =>
    intro k
    simp [processChunks, ih, processChunk_records_length]

lemma chunkArray_flatten (s : Nat) :
    ∀ (l : List α), (chunkArray l (s + 1)).flatten = l := by
  have main : ∀ (n : Nat) (l : List α), l.length ≤ n →
      (chunkArray l (s + 1)).flatten = l := by
    intro n
    induction n with
    | zero =>
      intro l hl
      have : l = [] := List.length_eq_zero.mp (Nat.le_zero.mp hl)
      subst this
      rw [chunkArray]
      rfl
    | succ n ih =>
      intro l hl
      match l with
      | [] => rw [chunkArray]; rfl
      | x :: xs =>
        rw [chunkArray]
        have hdrop : (xs.drop s).length ≤ n := by
          simp only [List.length_drop]
          simp at hl
          omega
        simp only [List.flatten_cons, ih _ hdrop, List.take_succ_cons]
        simp [List.take_append_drop]
  intro l
  exact main l.length l (Nat.le_refl _)

lemma sum_over_chunks (f : String → Nat) :
    ∀ (chunks : List (List String)),
      (chunks.map (fun chunk => (chunk.map f).sum)).sum
        = (chunks.flatten.map f).sum := by
  intro chunks
  induction chunks with
  | nil => rfl
  | cons chunk rest ih =>
    simp [ih]

lemma per_id_split (env : AnalyzerEnv) :
    ∀ (ids : List String),
      (ids.map (fun id =>
        if (env.getShipmentById id).isSuccess then
          foundContainerCount (env.getShipmentById id)
        else 1)).sum
      = ids.countP (fun id => !(env.getShipmentById id).isSuccess)
        + (ids.map (fun id =>
            foundContainerCount (env.getShipmentById id))).sum := by
  intro ids
  induction ids with
  | nil => rfl
  | cons id rest ih =>
    by_cases h : (env.getShipmentById id).isSuccess
    · have h0 : foundContainerCount (env.getShipmentById id) ≥ 0 := Nat.zero_le _
      simp [List.countP_cons, h, ih]
      omega
    · have hfc : foundContainerCount (env.getShipmentById id) = 0 := by
        cases hr : env.getShipmentById id <;>
          simp_all [Result.isSuccess, foundContainerCount]
      simp [List.countP_cons, h, ih, hfc]
      omega

/-- Claim C1: assuming every adapter call returns a result value (modelled
by the total oracle functions of `AnalyzerEnv`) and a positive batch size
(the source's chunking loop does not terminate otherwise),
`analyzeShipments` emits exactly one placeholder record per input id whose
shipment lookup was not-found or fetch-error, plus one record per container
of each successfully fetched shipment. -/
theorem analyzeShipments_total_accounting (env : AnalyzerEnv)
    (ids : List String) (batchSize k : Nat) (h : 0 < batchSize) :
    (analyzeShipments env ids batchSize k).records.length
      = ids.countP (fun id => !(env.getShipmentById id).isSuccess)
        + (ids.map (fun id =>
            foundContainerCount (env.getShipmentById id))).sum := by
  obtain ⟨s, rfl⟩ : ∃ s, batchSize = s + 1 :=
    ⟨batchSize - 1, by omega⟩
  unfold analyzeShipments
  rw [processChunks_records_length, sum_over_chunks, chunkArray_flatten,
    per_id_split]

/-- Witness for claim C1 at a concrete batch: one failing id and one
resolved shipment with two containers, batch size 1. -/
theorem analyzeShipments_total_accounting_witness :
    0 < 1 ∧
    (analyzeShipments envMixed ["S-BAD", "S-OK"] 1 0).records.length
      = (["S-BAD", "S-OK"].countP
          (fun id => !(envMixed.getShipmentById id).isSuccess))
        + ((["S-BAD", "S-OK"].map
            (fun id => foundContainerCount
              (envMixed.getShipmentById id))).sum) :=
  ⟨by decide,
    analyzeShipments_total_accounting envMixed ["S-BAD", "S-OK"] 1 0
      (by decide)⟩

/-- Witness for claim C2: a high-confidence first verdict is accepted
after exactly one call. -/
theorem analyzeDelayWithConfidenceCheck_confidence_gate_witness :
    analyzeDelayWithConfidenceCheck anAccept "fog" "C1" 0
      = ⟨some ⟨true, "high", mkRat 95 100⟩, 1, []⟩ :=
  (analyzeDelayWithConfidenceCheck_confidence_gate anAccept "fog" "C1" 0).2.1
    (by decide)

/-- Witness for claim C3: an accepted weather-related verdict on the first
reason short-circuits past the second reason. -/
theorem hasWeatherRelatedDelay_short_circuit_witness :
    hasWeatherRelatedDelay anAccept ["storm", "strike"] "C1" 0
      = ⟨true, 0 + specCallsUsed anAccept "storm" 0, []⟩ :=
  (hasWeatherRelatedDelay_short_circuit anAccept "C1" envTrackNotFound
    shFix).2.1 "storm" ["strike"] 0 ⟨true, "high", mkRat 95 100⟩
    (by decide) rfl

/-- Counterexample for claim C4 as stated: with one error keyed by the
record's shipment id and one keyed by its container number, the code
attaches only the shipment-keyed message, not the join of all matching
messages the claim requires. -/
theorem enrichRecordsWithErrors_union_counterexample :
    ((enrichRecordsWithErrors [recFix] errsFix "T1").map (fun r => r.error)
      = [some "SHIPMENT_FETCH_ERROR: m1"]) ∧
    (specErrorFor errsFix recFix
      = some "SHIPMENT_FETCH_ERROR: m1; WEATHER_FETCH_ERROR: m2") ∧
    ((enrichRecordsWithErrors [recFix] errsFix "T1").map (fun r => r.error)
      ≠ [specErrorFor errsFix recFix]) := by
  refine ⟨by decide, by decide, by decide⟩

/-- Witness for claim C4 (amended) at a concrete record and error list. -/
theorem enrichRecordsWithErrors_error_attachment_witness :
    (enrichRecordsWithErrors [recFix] errsFix "T1").map (fun r => r.error)
      = [recFix].map (fun r => codeErrorFor errsFix r) :=
  enrichRecordsWithErrors_error_attachment [recFix] errsFix "T1"

/-- Counterexample for claim C5 as stated: a weather fetch that is entered
and ends in retry exhaustion sets status `RETRY_EXHAUSTED` but appends no
`WEATHER_FETCH_ERROR` (the errors list stays empty). -/
theorem fetchWeatherSafely_retry_exhausted_no_error_counterexample :
    ((fetchWeatherSafely (composedOpenMeteoGetWeather 0 fetchFail
        retryOptsFix) trackFull "C1").result.status
      = .RETRY_EXHAUSTED) ∧
    ((fetchWeatherSafely (composedOpenMeteoGetWeather 0 fetchFail
        retryOptsFix) trackFull "C1").newErrors = []) := by
  refine ⟨by decide, by decide⟩

/-- Witness for claim C5 (amended) at a concrete exhausting fetch. -/
theorem fetchWeatherSafely_failure_accounting_witness :
    ∃ e, fetchFail retryOptsFix.maxRetries = .error e ∧
      fetchWeatherSafely (composedOpenMeteoGetWeather 0 fetchFail
        retryOptsFix) trackFull "C1"
        = ⟨.RETRY_EXHAUSTED ("Failed to fetch weather data after "
            ++ toString (retryOptsFix.maxRetries + 1) ++ " attempts: "
            ++ e.message), [], true⟩ :=
  (fetchWeatherSafely_failure_accounting 0 fetchFail retryOptsFix trackFull
    "C1" geoFix ⟨0, 12⟩ rfl rfl (by decide)
    (fun _ _ => ⟨⟨"network timeout", none⟩, rfl, by decide⟩)).1

/-- Witness for claim C6: a non-retryable failure on the first attempt is
re-raised unchanged after one call. -/
theorem retryWithBackoff_contract_witness :
    retryWithBackoff opNotRetryable retryOptsFix isRetryableError
      = ⟨.raised ⟨"Open-Meteo API error: invalid parameters", some 400⟩,
          0 + 1⟩ :=
  (retryWithBackoff_contract opNotRetryable retryOptsFix
    isRetryableError).2.1 0
    ⟨"Open-Meteo API error: invalid parameters", some 400⟩ (by decide) rfl
    (by decide) (fun j hj => absurd hj (Nat.not_lt_zero j))

/-- Witness for claim C7: day 5 is strictly after day 0, so the provider
short-circuits without a network call. -/
theorem openMeteoGetWeather_future_short_circuit_witness :
    openMeteoGetWeather 0 fetchFail retryOptsFix (mkRat 51 1) (mkRat 5 1)
      ⟨5, 0⟩
      = (.NO_DATA_AVAILABLE
          (some ("Archive API only supports historical data. Requested date "
            ++ toString (5 : Int) ++ " is in the future.")), false) :=
  openMeteoGetWeather_future_short_circuit 0 fetchFail retryOptsFix
    (mkRat 51 1) (mkRat 5 1) ⟨5, 0⟩ (by decide)

/-- Witness for claim C8: a not-found tracking lookup emits the base
record with no error entry. -/
theorem processContainer_tracking_tristate_witness :
    processContainer envTrackNotFound shFix "C1" 0
      = ⟨buildBaseRecord shFix "C1" none "T0", [], 0, false, false⟩ :=
  (processContainer_tracking_tristate envTrackNotFound shFix "C1" 0).2.1
    "tracking not found" rfl

/-- Witness for claim C9: a missing destination port short-circuits to
`NO_DATA_AVAILABLE` with no provider call and no error. -/
theorem fetchWeatherSafely_missing_precondition_witness :
    fetchWeatherSafely (fun _ _ _ => .ok (.NO_DATA_AVAILABLE none))
      trackNoPort "C1"
      = ⟨.NO_DATA_AVAILABLE (some "Missing port location or arrival date"),
          [], false⟩ :=
  (fetchWeatherSafely_missing_precondition
    (fun _ _ _ => .ok (.NO_DATA_AVAILABLE none)) trackNoPort "C1"
    (Or.inl rfl)).1

/-- Witness for claim C10: the reason "fog" matches a weather keyword, so
the gate makes two calls and discards the verdict with one low-confidence
error. -/
theorem keywordAnalyzer_never_accepted_witness :
    analyzeDelayWithConfidenceCheck (fun _ s => keywordAnalyzeDelay s)
      "fog" "C1" 0
      = ⟨none, 0 + 2,
          [⟨"C1", "DELAY_ANALYSIS_LOW_CONFIDENCE",
            lowConfidenceMessage (mkRat 7 10) "fog"⟩]⟩ :=
  keywordAnalyzer_never_accepted.2.2.1 "fog" "C1" 0 (by decide)
